import Mathlib

/-!
Verification development for the LEDMatrix weather manager
(`src/weather_manager.py`).  The definitions below are a shallow
embedding of the pure decision and transformation logic of
`WeatherManager`: forecast aggregation (`_process_forecast_data`),
the fetch/cache policy (`_fetch_weather`, `get_weather`) and the
redraw decisions of the display methods.  Machine effects (HTTP,
PIL drawing, the LED matrix) are abstracted: the outcome of a fetch
attempt is an explicit parameter, drawing is recorded as a boolean
or as the tuple of values that would be rendered.  Times and
temperatures are rationals; timestamps are integer epoch seconds
interpreted with an explicit timezone offset (Python's
`datetime.fromtimestamp` uses local time).
-/

set_option autoImplicit false

namespace LEDMatrix

/-- Python's `round` on a rational number: round half to even
(banker's rounding), as used by `round(hour_data['main']['temp'])`. -/
def pyRound (q : ℚ) : ℤ :=
  let f : ℤ := ⌊q⌋
  let r : ℚ := q - f
  if r < 1/2 then f
  else if 1/2 < r then f + 1
  else if f % 2 = 0 then f else f + 1

/-- Local calendar day number of an epoch timestamp `dt` under timezone
offset `tz` (seconds east of UTC).  Two timestamps render to the same
`strftime('%Y-%m-%d')` string exactly when they have the same local day
number. -/
def dayNumber (tz dt : ℤ) : ℤ := (dt + tz).fdiv 86400

/-- Local hour of day (0..23) of an epoch timestamp under offset `tz`. -/
def hourOfDay (tz dt : ℤ) : ℕ := ((dt + tz).emod 86400).toNat / 3600

/-- Zero-padded two-digit decimal rendering, as `strftime` pads `%I`,
`%m` and `%d`. -/
def pad2 (n : ℕ) : String := if n < 10 then "0" ++ toString n else toString n

/-- Python's `str.lstrip('0')`: drop every leading `0` character. -/
def lstripZeros (s : String) : String := String.mk (s.toList.dropWhile (· == '0'))

/-- The hour label of `_process_forecast_data`:
`datetime.strftime('%I%p').lstrip('0')` — 12-hour clock (`%I` maps hour 0
to 12), zero padded, suffixed `AM`/`PM`, then leading zeros stripped. -/
def hourLabel12 (h : ℕ) : String :=
  lstripZeros (pad2 (if h % 12 = 0 then 12 else h % 12) ++ (if h < 12 then "AM" else "PM"))

/-- Short weekday name of a day number, as `strftime('%a')`.
Epoch day 0 (1970-01-01) was a Thursday. -/
def weekdayAbbrev (day : ℤ) : String :=
  [ "Thu", "Fri", "Sat", "Sun", "Mon", "Tue", "Wed" ].getD (day.emod 7).toNat ""

/-- Gregorian civil date (year, month, day-of-month) from a day number
(days since 1970-01-01), the standard days-from-civil inverse. -/
def civilFromDays (z0 : ℤ) : ℤ × ℕ × ℕ :=
  let z : ℤ := z0 + 719468
  let era : ℤ := z.fdiv 146097
  let doe : ℕ := (z - era * 146097).toNat
  let yoe : ℕ := (doe - doe / 1460 + doe / 36524 - doe / 146096) / 365
  let doy : ℕ := doe - (365 * yoe + yoe / 4 - yoe / 100)
  let mp : ℕ := (5 * doy + 2) / 153
  let d : ℕ := doy - (153 * mp + 2) / 5 + 1
  let m : ℕ := if mp < 10 then mp + 3 else mp - 9
  (if m ≤ 2 then era * 400 + yoe + 1 else era * 400 + yoe, m, d)

/-- `strftime('%m/%d')` of a day number (zero padded by `strftime`). -/
def mmddLabel (day : ℤ) : String :=
  let c := civilFromDays day
  pad2 c.2.1 ++ "/" ++ pad2 c.2.2

/-- A well-formed forecast sample: `item['dt']`, `item['main']['temp']`,
`item['weather'][0]['main']`. -/
structure Sample where
  dt : ℤ
  temp : ℚ
  cond : String
deriving DecidableEq, Repr

/-- A raw forecast list item as JSON: each field is `none` when the
corresponding key path (`dt`, `main.temp`, `weather[0].main`) is absent
or has the wrong shape, in which case subscripting raises in Python. -/
structure RawItem where
  dt : Option ℤ
  temp : Option ℚ
  cond : Option String
deriving DecidableEq, Repr

/-- Embed a well-formed sample as a raw item. -/
def toRaw (s : Sample) : RawItem := ⟨some s.dt, some s.temp, some s.cond⟩

/-- Extract the three fields used by both loops of
`_process_forecast_data`; an absent key raises (`.error`). -/
def extractSample (it : RawItem) : Except Unit Sample :=
  match it.dt, it.temp, it.cond with
  | some d, some t, some c => .ok ⟨d, t, c⟩
  | _, _, _ => .error ()

/-- One entry of `self.hourly_forecast`. -/
structure HourlyEntry where
  hour : String
  temp : ℤ
  condition : String
deriving DecidableEq, Repr

/-- One entry of `self.daily_forecast`. -/
structure DailyEntry where
  date : String
  date_str : String
  temp_high : ℤ
  temp_low : ℤ
  condition : String
deriving DecidableEq, Repr

/-- The hourly entry derived from one well-formed sample. -/
def mkHourlyEntry (tz : ℤ) (s : Sample) : HourlyEntry :=
  ⟨hourLabel12 (hourOfDay tz s.dt), pyRound s.temp, s.cond⟩

/-- The hourly loop of `_process_forecast_data`: builds entries in
order; on the first item whose required key is missing it stops with
`true` (a `KeyError` is raised there, after the earlier entries were
already appended to `self.hourly_forecast`). -/
def hourlyLoop (tz : ℤ) : List RawItem → List HourlyEntry × Bool
  | [] => ([], false)
  | it :: rest =>
    match extractSample it with
    | .error _ => ([], true)
    | .ok s =>
      let r := hourlyLoop tz rest
      (mkHourlyEntry tz s :: r.1, r.2)

/-- One value of the `daily_data` dict: the temperatures and conditions
of a date's samples in order, and the datetime of the first sample
(`data['date']`). -/
structure DayGroup where
  temps : List ℚ
  conds : List String
  date0 : ℤ
deriving DecidableEq, Repr

/-- Append a sample's fields to the group for `day` (the dict already
has that key). -/
def addToGroup (acc : List (ℤ × DayGroup)) (day : ℤ) (t : ℚ) (c : String) :
    List (ℤ × DayGroup) :=
  acc.map fun p =>
    if p.1 = day then (p.1, ⟨p.2.temps ++ [t], p.2.conds ++ [c], p.2.date0⟩) else p

/-- One iteration of the grouping loop: dict insertion keeps first-seen
key order, so a new date is appended at the end. -/
def insertSample (tz : ℤ) (acc : List (ℤ × DayGroup)) (s : Sample) :
    List (ℤ × DayGroup) :=
  let day := dayNumber tz s.dt
  if day ∈ acc.map Prod.fst then addToGroup acc day s.temp s.cond
  else acc ++ [(day, ⟨[s.temp], [s.cond], s.dt⟩)]

/-- The `daily_data` dict built by iterating the (already truncated)
sample list, as an insertion-ordered association list. -/
def groupByDate (tz : ℤ) (l : List Sample) : List (ℤ × DayGroup) :=
  l.foldl (insertSample tz) []

/-- Python `max` on a nonempty list (ties keep the earlier element;
irrelevant for numbers).  The empty case raises in Python and is
unreachable here (groups are created nonempty); it returns a junk 0. -/
def pyMaxQ : List ℚ → ℚ
  | [] => 0
  | x :: xs => xs.foldl max x

/-- Python `min` on a nonempty list; empty case as in `pyMaxQ`. -/
def pyMinQ : List ℚ → ℚ
  | [] => 0
  | x :: xs => xs.foldl min x

/-- Helper of `firstMaxBy`: fold keeping the current best, replaced only
on strictly greater key — exactly Python's `max(iterable, key=...)`,
where the first maximal element encountered wins ties. -/
def maxByAux {α : Type} (key : α → ℕ) (b : α) : List α → α
  | [] => b
  | y :: ys => maxByAux key (if key b < key y then y else b) ys

/-- Python `max(iterable, key=...)`: `none` on the empty iterable
(Python raises `ValueError` there). -/
def firstMaxBy {α : Type} (key : α → ℕ) : List α → Option α
  | [] => none
  | x :: xs => some (maxByAux key x xs)

/-- `max(set(data['conditions']), key=data['conditions'].count)`.
CPython iterates a `set` of strings in a hash-dependent order that is
randomized across interpreter runs, so the iteration order is modelled
as an explicit argument `order` (an enumeration of the distinct
conditions).  The count key is `list.count`. -/
def dominantWith (order : List String) (conds : List String) : String :=
  (firstMaxBy (fun c => conds.count c) order).getD ""

/-- A possible CPython `set` iteration order for the elements of
`conds`: no duplicates, and exactly the elements of `conds`. -/
def ValidSetOrder (order conds : List String) : Prop :=
  order.Nodup ∧ (∀ c ∈ order, c ∈ conds) ∧ ∀ c ∈ conds, c ∈ order

/-- First-seen-order deduplication (insertion order of dict keys, and
one concrete valid set order). -/
def firstSeen {α : Type} [DecidableEq α] (l : List α) : List α :=
  l.foldl (fun acc d => if d ∈ acc then acc else acc ++ [d]) []

/-- Reversed first-seen order: another valid set order for every input,
used to exhibit order dependence. -/
def revSetOrder (l : List String) : List String := (firstSeen l).reverse

/-- The daily summary of one date group, under set-iteration order
oracle `setOrder`: high/low are the rounded max/min of the group's
temperatures, the condition is the hash-order-dependent mode, and the
labels come from the group's first sample's local date. -/
def mkDaily (tz : ℤ) (setOrder : List String → List String)
    (g : ℤ × DayGroup) : DailyEntry :=
  { date := weekdayAbbrev (dayNumber tz g.2.date0)
    date_str := mmddLabel (dayNumber tz g.2.date0)
    temp_high := pyRound (pyMaxQ g.2.temps)
    temp_low := pyRound (pyMinQ g.2.temps)
    condition := dominantWith (setOrder g.2.conds) g.2.conds }

/-- The daily part of `_process_forecast_data`, run over the truncated
list `hl`.  It re-subscripts the same items as the hourly loop, so it is
only reached when every item of `hl` extracts successfully; the
`filterMap` then performs the total extraction. -/
def dailyFromItems (tz : ℤ) (setOrder : List String → List String)
    (hl : List RawItem) : List DailyEntry :=
  let samples := hl.filterMap fun it => (extractSample it).toOption
  ((groupByDate tz samples).take 3).map (mkDaily tz setOrder)

/-- The forecast payload handed to `_process_forecast_data`: `falsy`
when `not forecast_data` holds (`None` or an empty dict), otherwise the
value of `forecast_data.get('list', [])` (a truthy dict without a
`list` key yields `items []`). -/
inductive FPayload where
  | falsy
  | items (l : List RawItem)
deriving DecidableEq, Repr

/-- The two derived-forecast fields of the manager, `None` before ever
being assigned. -/
structure AggState where
  hourly_forecast : Option (List HourlyEntry)
  daily_forecast : Option (List DailyEntry)
deriving DecidableEq, Repr

/-- `_process_forecast_data`: on a falsy payload, return untouched; else
take the first 6 items, run the hourly loop (a raised `KeyError` leaves
the partially built hourly list assigned and the daily list untouched),
then group those same 6 items by local calendar date and keep the first
3 groups.  The boolean is `true` when the call raised. -/
def processForecastData (tz : ℤ) (setOrder : List String → List String)
    (st : AggState) (fp : FPayload) : AggState × Bool :=
  match fp with
  | .falsy => (st, false)
  | .items l =>
    let hl := l.take 6
    let hr := hourlyLoop tz hl
    if hr.2 then ({ st with hourly_forecast := some hr.1 }, true)
    else (⟨some hr.1, some (dailyFromItems tz setOrder hl)⟩, false)

/-- The current-conditions payload fields read by `display_weather`:
`main.temp`, `weather[0].main`, `main.humidity`. -/
structure WPayload where
  temp : ℚ
  condition : String
  humidity : ℤ
deriving DecidableEq, Repr

/-- The mutable fields of `WeatherManager` that the cache and redraw
logic reads and writes.  `last_temp_cond` is `none` while the
`last_temp` attribute does not yet exist (`hasattr` is false). -/
structure MgrState where
  weather_data : Option WPayload
  forecast_data : Option FPayload
  hourly_forecast : Option (List HourlyEntry)
  daily_forecast : Option (List DailyEntry)
  last_update : ℚ
  last_temp_cond : Option (ℤ × String)
  last_draw_time : ℚ
deriving DecidableEq, Repr

/-- The state set up by `__init__`. -/
def initState : MgrState :=
  { weather_data := none, forecast_data := none, hourly_forecast := none,
    daily_forecast := none, last_update := 0, last_temp_cond := none,
    last_draw_time := 0 }

/-- Outcome of one `_fetch_weather` attempt, abstracting the HTTP layer:
which guard fired, which request raised, or the payloads on success. -/
inductive FetchOutcome where
  /-- `weather_config.get('api_key')` is missing or falsy. -/
  | noApiKey
  /-- the geocoding request raised (network/HTTP/parse error). -/
  | geoError
  /-- the geocoding response was an empty list (location not found). -/
  | geoEmpty
  /-- the current-weather request raised. -/
  | currentError
  /-- the forecast request raised. -/
  | forecastError
  /-- every request succeeded, returning these payloads. -/
  | success (w : WPayload) (fp : FPayload)
deriving DecidableEq, Repr

/-- `_fetch_weather`: the two early `return`s leave the state untouched;
any exception inside the `try` is caught and sets `weather_data` and
`forecast_data` to `None` (the derived hourly/daily lists are not
touched by the handler); on success the payloads are stored, the
forecast is processed (a `KeyError` there lands in the same handler,
after `_process_forecast_data` already mutated the hourly list), and
only a fully successful run updates `last_update` to `now`. -/
def fetchWeather (tz : ℤ) (setOrder : List String → List String)
    (st : MgrState) (o : FetchOutcome) (now : ℚ) : MgrState :=
  match o with
  | .noApiKey => st
  | .geoError => { st with weather_data := none, forecast_data := none }
  | .geoEmpty => st
  | .currentError => { st with weather_data := none, forecast_data := none }
  | .forecastError => { st with weather_data := none, forecast_data := none }
  | .success w fp =>
    let st1 := { st with weather_data := some w, forecast_data := some fp }
    let pr := processForecastData tz setOrder
      ⟨st1.hourly_forecast, st1.daily_forecast⟩ fp
    let st2 := { st1 with hourly_forecast := pr.1.hourly_forecast,
                          daily_forecast := pr.1.daily_forecast }
    if pr.2 then { st2 with weather_data := none, forecast_data := none }
    else { st2 with last_update := now }

/-- The guard of `get_weather`: `not self.weather_data or
current_time - self.last_update > update_interval` with default 300.
A successfully fetched JSON payload is truthy, so `not
self.weather_data` holds exactly when `weather_data` is `None`. -/
def shouldFetch (upd : Option ℚ) (st : MgrState) (now : ℚ) : Bool :=
  st.weather_data.isNone || decide (now - st.last_update > upd.getD 300)

/-- `get_weather`: runs `_fetch_weather` when the guard holds, then
returns `self.weather_data`.  The third component counts the fetch
attempts made by this call (0 or 1). -/
def getWeather (tz : ℤ) (setOrder : List String → List String)
    (upd : Option ℚ) (st : MgrState) (now : ℚ) (o : FetchOutcome) :
    MgrState × Option WPayload × ℕ :=
  if shouldFetch upd st now then
    let st1 := fetchWeather tz setOrder st o now
    (st1, st1.weather_data, 1)
  else (st, st.weather_data, 0)

/-- The dirty check of `display_weather`:
`force_clear or not hasattr(self, 'last_temp') or temp != self.last_temp
or condition != self.last_condition`. -/
def currentRedrawCond (force : Bool) (prev : Option (ℤ × String))
    (temp : ℤ) (cond : String) : Bool :=
  force || match prev with
    | none => true
    | some p => decide (temp ≠ p.1) || decide (cond ≠ p.2)

/-- `display_weather`: gets (possibly refetching) the weather; with no
payload it returns silently.  Otherwise it redraws exactly when the
dirty check fires, rendering the rounded temperature, the condition and
the humidity, and only then records `last_temp`/`last_condition`.  The
second component is the rendered `(temp, condition, humidity)` tuple,
`none` when the redraw was skipped. -/
def displayWeather (tz : ℤ) (setOrder : List String → List String)
    (upd : Option ℚ) (st : MgrState) (now : ℚ) (o : FetchOutcome)
    (force : Bool) : MgrState × Option (ℤ × String × ℤ) :=
  let g := getWeather tz setOrder upd st now o
  match g.2.1 with
  | none => (g.1, none)
  | some w =>
    let temp := pyRound w.temp
    let cond := w.condition
    if currentRedrawCond force g.1.last_temp_cond temp cond then
      ({ g.1 with last_temp_cond := some (temp, cond) },
       some (temp, cond, w.humidity))
    else (g.1, none)

/-- Python truthiness of an optional list attribute: `None` and the
empty list are falsy. -/
def truthyList {α : Type} : Option (List α) → Bool
  | none => false
  | some l => !l.isEmpty

/-- `display_hourly_forecast`: when `self.hourly_forecast` is falsy it
first calls `get_weather` (for its side effects); if the list is still
falsy it returns without drawing.  Then the frame gate: with
`force_clear` false and `now - self.last_draw_time < 0.1` it returns
without drawing or touching state; otherwise it draws and sets
`last_draw_time := now`.  The boolean reports whether a frame was
drawn. -/
def displayHourlyForecast (tz : ℤ) (setOrder : List String → List String)
    (upd : Option ℚ) (st : MgrState) (now : ℚ) (o : FetchOutcome)
    (force : Bool) : MgrState × Bool :=
  let st1 := if truthyList st.hourly_forecast then st
             else (getWeather tz setOrder upd st now o).1
  if !truthyList st1.hourly_forecast then (st1, false)
  else if !force && decide (now - st1.last_draw_time < 1/10) then (st1, false)
  else ({ st1 with last_draw_time := now }, true)

/-- `display_daily_forecast`: same shape as the hourly view, gated on
`self.daily_forecast` and the same shared `last_draw_time` field. -/
def displayDailyForecast (tz : ℤ) (setOrder : List String → List String)
    (upd : Option ℚ) (st : MgrState) (now : ℚ) (o : FetchOutcome)
    (force : Bool) : MgrState × Bool :=
  let st1 := if truthyList st.daily_forecast then st
             else (getWeather tz setOrder upd st now o).1
  if !truthyList st1.daily_forecast then (st1, false)
  else if !force && decide (now - st1.last_draw_time < 1/10) then (st1, false)
  else ({ st1 with last_draw_time := now }, true)

/-- Spec-side count ("number of distinct calendar dates among all
samples"), for comparison with what the code computes. -/
def distinctDateCountSpec (tz : ℤ) (l : List Sample) : ℕ :=
  (firstSeen (l.map fun s => dayNumber tz s.dt)).length

/-- Spec-side dominant condition ("ties broken by
first-encountered-in-iteration-order": iterate in order, maintain
counts, first maximum wins), for comparison with `dominantWith`. -/
def stableModeSpec (conds : List String) : String :=
  (firstMaxBy (fun c => conds.count c) (firstSeen conds)).getD ""

/-! ### Supporting lemmas -/

/-- `pyRound` always lands on a nearest integer. -/
theorem pyRound_nearest (q : ℚ) : |(pyRound q : ℚ) - q| ≤ 1/2 := by
  have hle : (⌊q⌋ : ℚ) ≤ q := Int.floor_le q
  have hlt : q < (⌊q⌋ : ℚ) + 1 := Int.lt_floor_add_one q
  unfold pyRound
  by_cases h1 : q - (⌊q⌋ : ℚ) < 1/2
  · simp only [h1, if_true]
    rw [abs_le]
    constructor <;> linarith
  · simp only [h1, if_false]
    by_cases h2 : (1:ℚ)/2 < q - (⌊q⌋ : ℚ)
    · simp only [h2, if_true]
      rw [abs_le]
      push_cast
      constructor <;> linarith
    · simp only [h2, if_false]
      have heq : q - (⌊q⌋ : ℚ) = 1/2 := le_antisymm (not_lt.mp h2) (not_lt.mp h1)
      by_cases h3 : ⌊q⌋ % 2 = 0
      · simp only [h3, if_true]
        rw [abs_le]
        constructor <;> linarith
      · simp only [h3, if_false]
        rw [abs_le]
        push_cast
        constructor <;> linarith

/-- Extraction round-trips on well-formed samples. -/
theorem extractSample_toRaw (s : Sample) : extractSample (toRaw s) = .ok s := rfl

/-- The hourly loop never raises on well-formed samples and produces
exactly the mapped entries. -/
theorem hourlyLoop_map (tz : ℤ) (l : List Sample) :
    hourlyLoop tz (l.map toRaw) = (l.map (mkHourlyEntry tz), false) := by
  induction l with
  | nil => rfl
  | cons s rest ih => simp [hourlyLoop, extractSample_toRaw, ih]

/-- Total extraction of well-formed samples. -/
theorem filterMap_extract_toRaw (l : List Sample) :
    (l.map toRaw).filterMap (fun it => (extractSample it).toOption) = l := by
  have hstep : ∀ s : Sample, (extractSample (toRaw s)).toOption = some s :=
    fun _ => rfl
  rw [List.filterMap_map]
  induction l with
  | nil => rfl
  | cons s rest ih =>
    simp only [List.filterMap_cons, Function.comp_apply, hstep, ih]

/-- Updating an existing date group does not change the dict's keys. -/
theorem addToGroup_keys (day : ℤ) (t : ℚ) (c : String) :
    ∀ acc : List (ℤ × DayGroup),
      (addToGroup acc day t c).map Prod.fst = acc.map Prod.fst := by
  intro acc
  induction acc with
  | nil => rfl
  | cons p ps ih =>
    simp only [addToGroup, List.map_map] at ih ⊢
    simp only [List.map_cons]
    refine congrArg₂ _ ?_ ih
    by_cases h : p.1 = day <;> simp [h]

/-- The keys of one grouping step follow the first-seen insertion rule. -/
theorem insertSample_keys (tz : ℤ) (acc : List (ℤ × DayGroup)) (s : Sample) :
    (insertSample tz acc s).map Prod.fst =
      (if dayNumber tz s.dt ∈ acc.map Prod.fst then acc.map Prod.fst
       else acc.map Prod.fst ++ [dayNumber tz s.dt]) := by
  unfold insertSample
  by_cases h : dayNumber tz s.dt ∈ acc.map Prod.fst
  · simp [h, addToGroup_keys]
  · simp [h]

/-- The grouping fold's keys compute the first-seen fold of day
numbers, for every starting accumulator. -/
theorem foldl_insert_keys (tz : ℤ) (l : List Sample) :
    ∀ acc : List (ℤ × DayGroup),
      ((l.foldl (insertSample tz) acc).map Prod.fst) =
        l.foldl
          (fun a s => if dayNumber tz s.dt ∈ a then a else a ++ [dayNumber tz s.dt])
          (acc.map Prod.fst) := by
  induction l with
  | nil => intro acc; rfl
  | cons s rest ih =>
    intro acc
    simp only [List.foldl_cons]
    rw [ih, insertSample_keys]

/-- The dict keys of `groupByDate` are the sample dates in first-seen
order. -/
theorem groupByDate_keys (tz : ℤ) (l : List Sample) :
    (groupByDate tz l).map Prod.fst =
      firstSeen (l.map fun s => dayNumber tz s.dt) := by
  rw [groupByDate, foldl_insert_keys, firstSeen, List.foldl_map]
  rfl

/-- `maxByAux` returns its seed or a list element. -/
theorem maxByAux_mem {α : Type} (key : α → ℕ) :
    ∀ (l : List α) (b : α), maxByAux key b l = b ∨ maxByAux key b l ∈ l
  | [], _ => Or.inl rfl
  | y :: ys, b => by
    simp only [maxByAux]
    rcases maxByAux_mem key ys (if key b < key y then y else b) with h | h
    · rw [h]
      by_cases hk : key b < key y
      · rw [if_pos hk]
        exact Or.inr (List.mem_cons_self y ys)
      · rw [if_neg hk]
        exact Or.inl rfl
    · exact Or.inr (List.mem_cons_of_mem y h)

/-- The `maxByAux` result's key dominates the seed's key. -/
theorem maxByAux_ge_seed {α : Type} (key : α → ℕ) :
    ∀ (l : List α) (b : α), key b ≤ key (maxByAux key b l)
  | [], _ => le_refl _
  | y :: ys, b => by
    simp only [maxByAux]
    by_cases hk : key b < key y
    · rw [if_pos hk]
      exact le_of_lt (lt_of_lt_of_le hk (maxByAux_ge_seed key ys y))
    · rw [if_neg hk]
      exact maxByAux_ge_seed key ys b

/-- The `maxByAux` result's key dominates every list element's key. -/
theorem maxByAux_ge {α : Type} (key : α → ℕ) :
    ∀ (l : List α) (b : α) (x : α), x ∈ l → key x ≤ key (maxByAux key b l)
  | [], _, _, hx => absurd hx (List.not_mem_nil _)
  | y :: ys, b, x, hx => by
    simp only [maxByAux]
    rcases List.mem_cons.mp hx with h | h
    · subst h
      by_cases hk : key b < key x
      · rw [if_pos hk]
        exact maxByAux_ge_seed key ys x
      · rw [if_neg hk]
        exact le_trans (not_lt.mp hk) (maxByAux_ge_seed key ys b)
    · exact maxByAux_ge key ys _ x h

/-- When the weather payload is present and fresh, `get_weather`
performs no fetch and returns the cached payload. -/
theorem getWeather_fresh (tz : ℤ) (setOrder : List String → List String)
    (upd : Option ℚ) (st : MgrState) (now : ℚ) (o : FetchOutcome)
    (w : WPayload) (hw : st.weather_data = some w)
    (hfresh : now - st.last_update ≤ upd.getD 300) :
    getWeather tz setOrder upd st now o = (st, some w, 0) := by
  have hguard : shouldFetch upd st now = false := by
    simp [shouldFetch, hw, not_lt.mpr hfresh]
  simp [getWeather, hguard, hw]

/-- Characterization of `_process_forecast_data` on a payload of
well-formed samples: it never raises, the hourly list maps the first 6
samples, and the daily list summarizes the first 3 date groups of those
same 6 samples. -/
theorem processForecastData_samples (tz : ℤ)
    (setOrder : List String → List String) (st : AggState) (l : List Sample) :
    processForecastData tz setOrder st (.items (l.map toRaw)) =
      (⟨some ((l.take 6).map (mkHourlyEntry tz)),
        some (((groupByDate tz (l.take 6)).take 3).map (mkDaily tz setOrder))⟩,
       false) := by
  have h1 : (l.map toRaw).take 6 = (l.take 6).map toRaw :=
    (List.map_take toRaw l 6).symm
  simp only [processForecastData, h1, hourlyLoop_map, dailyFromItems,
    filterMap_extract_toRaw, Bool.false_eq_true, if_false]

/-! ### Claim theorems -/

/-- **C1, counterexample.**  The daily list length is not
`min(3, number of distinct calendar dates among all samples)`: the
grouping loop of `_process_forecast_data` iterates only
`hourly_list = forecast_data['list'][:6]`, so 9 samples whose first six
share one date and whose last three introduce two further dates yield a
single `DailyEntry`, although the samples span 3 distinct dates. -/
theorem claim1_daily_all_dates_counterexample :
    let l : List Sample :=
      [⟨0, 70, "Clear"⟩, ⟨3600, 71, "Clear"⟩, ⟨7200, 72, "Rain"⟩,
       ⟨10800, 73, "Rain"⟩, ⟨14400, 74, "Rain"⟩, ⟨18000, 75, "Clear"⟩,
       ⟨86400, 60, "Snow"⟩, ⟨172800, 50, "Rain"⟩, ⟨176400, 51, "Clear"⟩]
    ((processForecastData 0 firstSeen ⟨none, none⟩
        (.items (l.map toRaw))).1.daily_forecast.getD []).length = 1
    ∧ min 3 (distinctDateCountSpec 0 l) = 3 ∧ (1 : ℕ) ≠ 3 := by
  decide

/-- **C1, amended.**  For every sample sequence, the daily list has
length `min(3, number of distinct calendar dates among the first
min(6, n) samples)` — not among all samples — its groups appear in the
order their date was first seen, and 9 (here 10) samples whose *first
six* span 3 distinct calendar dates yield exactly 3 `DailyEntry`
objects, a 4th date in a later sample being ignored. -/
theorem claim1_daily_truncated_dates (tz : ℤ)
    (setOrder : List String → List String) (l : List Sample) :
    ((processForecastData tz setOrder ⟨none, none⟩
        (.items (l.map toRaw))).1.daily_forecast.getD []).length
      = min 3 (firstSeen ((l.take 6).map fun s => dayNumber tz s.dt)).length
    ∧ (groupByDate tz (l.take 6)).map Prod.fst
      = firstSeen ((l.take 6).map fun s => dayNumber tz s.dt)
    ∧ (let m : List Sample :=
        [⟨0, 70, "Clear"⟩, ⟨3600, 71, "Clear"⟩, ⟨86400, 72, "Rain"⟩,
         ⟨90000, 73, "Rain"⟩, ⟨172800, 74, "Rain"⟩, ⟨176400, 75, "Clear"⟩,
         ⟨259200, 60, "Snow"⟩, ⟨262800, 61, "Snow"⟩, ⟨266400, 62, "Snow"⟩,
         ⟨270000, 63, "Snow"⟩]
       ((processForecastData 0 firstSeen ⟨none, none⟩
          (.items (m.map toRaw))).1.daily_forecast.getD []).length = 3) := by
  refine ⟨?_, groupByDate_keys tz (l.take 6), by decide⟩
  rw [processForecastData_samples]
  simp only [Option.getD_some, List.length_map, List.length_take]
  rw [← groupByDate_keys tz (l.take 6), List.length_map]

/-- **C6.**  The hourly list consists of the first `min(6, n)` samples
in order; each entry's temperature is Python-rounded (landing on a
nearest integer), its condition is copied verbatim, and its hour label
is the 12-hour AM/PM rendering with leading zeros stripped; samples
spaced 3 hours apart starting at 09:00 yield labels
`9AM, 12PM, 3PM, 6PM, 9PM, 12AM`. -/
theorem claim6_hourly_entries (tz : ℤ)
    (setOrder : List String → List String) (l : List Sample) :
    (processForecastData tz setOrder ⟨none, none⟩
        (.items (l.map toRaw))).1.hourly_forecast
      = some ((l.take 6).map (mkHourlyEntry tz))
    ∧ ((l.take 6).map (mkHourlyEntry tz)).length = min 6 l.length
    ∧ (∀ s : Sample, mkHourlyEntry tz s
        = ⟨hourLabel12 (hourOfDay tz s.dt), pyRound s.temp, s.cond⟩)
    ∧ (∀ q : ℚ, |(pyRound q : ℚ) - q| ≤ 1/2)
    ∧ (let m : List Sample :=
        [⟨32400, 70, "Clear"⟩, ⟨43200, 71, "Clear"⟩, ⟨54000, 72, "Rain"⟩,
         ⟨64800, 73, "Rain"⟩, ⟨75600, 74, "Clear"⟩, ⟨86400, 75, "Clear"⟩]
       ((processForecastData 0 firstSeen ⟨none, none⟩
          (.items (m.map toRaw))).1.hourly_forecast.getD []).map
            HourlyEntry.hour
        = ["9AM", "12PM", "3PM", "6PM", "9PM", "12AM"]) := by
  refine ⟨?_, ?_, fun _ => rfl, pyRound_nearest, by decide⟩
  · rw [processForecastData_samples]
  · rw [List.length_map, List.length_take]

/-- **C8, counterexample.**  The aggregation is not total: a truthy
payload whose single list item lacks the `dt`, `main` and `weather`
keys makes `_process_forecast_data` raise a `KeyError` (modelled by the
raised flag being `true`). -/
theorem claim8_raises_counterexample :
    (processForecastData 0 firstSeen ⟨none, none⟩
      (.items [⟨none, none, none⟩])).2 = true := by
  decide

/-- **C8, amended.**  The aggregation never raises on payloads of
well-formed samples; an empty sample list yields empty hourly and daily
outputs; a falsy payload returns with the outputs untouched and without
raising; but a payload containing a malformed sample (a missing
required key) raises rather than yielding empty outputs. -/
theorem claim8_totality_wellformed :
    (∀ (tz : ℤ) (setOrder : List String → List String) (st : AggState)
        (l : List Sample),
      (processForecastData tz setOrder st (.items (l.map toRaw))).2 = false)
    ∧ (∀ (tz : ℤ) (setOrder : List String → List String) (st : AggState),
        processForecastData tz setOrder st .falsy = (st, false))
    ∧ (∀ (tz : ℤ) (setOrder : List String → List String),
        processForecastData tz setOrder ⟨none, none⟩ (.items [])
          = (⟨some [], some []⟩, false)) := by
  refine ⟨?_, fun _ _ _ => rfl, fun _ _ => rfl⟩
  intro tz setOrder st l
  rw [processForecastData_samples]

/-- **C3, counterexample.**  The dominant condition is computed as
`max(set(conditions), key=conditions.count)`, and a CPython `set` of
strings iterates in a hash-randomized order: under the valid iteration
order `["Clear", "Rain"]` the tied group `[Rain, Clear]` yields
`"Clear"`, while the claimed earliest-first-occurrence rule yields
`"Rain"`; two valid orders give different results, so the aggregation
is not a deterministic function of the raw input. -/
theorem claim3_tie_counterexample :
    let conds : List String := ["Rain", "Clear"]
    ValidSetOrder (revSetOrder conds) conds
    ∧ dominantWith (revSetOrder conds) conds = "Clear"
    ∧ stableModeSpec conds = "Rain"
    ∧ dominantWith (revSetOrder conds) conds
        ≠ dominantWith (firstSeen conds) conds
    ∧ ((processForecastData 0 revSetOrder ⟨none, none⟩
          (.items (([⟨0, 70, "Rain"⟩, ⟨3600, 71, "Clear"⟩] :
            List Sample).map toRaw))).1.daily_forecast.getD []).map
            DailyEntry.condition = ["Clear"] := by
  refine ⟨⟨by decide, by decide, by decide⟩, by decide, by decide, by decide,
    by decide⟩

/-- **C3, amended.**  For every nonempty group and every valid set
iteration order, the dominant condition is one of the group's
conditions and its occurrence count is maximal (so a unique mode is
always selected); but ties are resolved by the set's iteration order,
which is hash-dependent, not by earliest first occurrence. -/
theorem claim3_dominant_is_mode (conds order : List String)
    (hvalid : ValidSetOrder order conds) (hne : conds ≠ []) :
    dominantWith order conds ∈ conds
    ∧ ∀ c ∈ conds, conds.count c ≤ conds.count (dominantWith order conds) := by
  obtain ⟨hnodup, hsub, hsup⟩ := hvalid
  obtain ⟨c0, hc0⟩ : ∃ c0, c0 ∈ conds := by
    cases conds with
    | nil => exact absurd rfl hne
    | cons a as => exact ⟨a, List.mem_cons_self a as⟩
  have horder : order ≠ [] := by
    intro h
    rw [h] at hsup
    exact absurd (hsup c0 hc0) (List.not_mem_nil c0)
  obtain ⟨o, os, rfl⟩ : ∃ o os, order = o :: os := by
    cases order with
    | nil => exact absurd rfl horder
    | cons o os => exact ⟨o, os, rfl⟩
  have hdom : dominantWith (o :: os) conds
      = maxByAux (fun c => conds.count c) o os := rfl
  constructor
  · rw [hdom]
    rcases maxByAux_mem (fun c => conds.count c) os o with h | h
    · rw [h]
      exact hsub o (List.mem_cons_self o os)
    · exact hsub _ (List.mem_cons_of_mem o h)
  · intro c hc
    rw [hdom]
    rcases List.mem_cons.mp (hsup c hc) with h | h
    · subst h
      exact maxByAux_ge_seed (fun x => conds.count x) os c
    · exact maxByAux_ge (fun x => conds.count x) os o c h

/-- Witness for `claim3_dominant_is_mode` at a concrete group with a
unique mode. -/
theorem claim3_dominant_is_mode_witness :
    ValidSetOrder ["Clear", "Rain"] ["Rain", "Rain", "Clear"]
    ∧ (["Rain", "Rain", "Clear"] : List String) ≠ []
    ∧ (dominantWith ["Clear", "Rain"] ["Rain", "Rain", "Clear"]
          ∈ (["Rain", "Rain", "Clear"] : List String)
       ∧ ∀ c ∈ (["Rain", "Rain", "Clear"] : List String),
          (["Rain", "Rain", "Clear"] : List String).count c
            ≤ (["Rain", "Rain", "Clear"] : List String).count
                (dominantWith ["Clear", "Rain"] ["Rain", "Rain", "Clear"])) :=
  ⟨⟨by decide, by decide, by decide⟩, by decide,
   claim3_dominant_is_mode ["Rain", "Rain", "Clear"] ["Clear", "Rain"]
     ⟨by decide, by decide, by decide⟩ (by decide)⟩

/-- A fully successful `_fetch_weather`: payloads stored, forecast
processed, `last_update` stamped. -/
theorem fetchWeather_success (tz : ℤ) (setOrder : List String → List String)
    (st : MgrState) (w : WPayload) (fp : FPayload) (now : ℚ)
    (hproc : (processForecastData tz setOrder
      ⟨st.hourly_forecast, st.daily_forecast⟩ fp).2 = false) :
    fetchWeather tz setOrder st (.success w fp) now
      = { st with
            weather_data := some w
            forecast_data := some fp
            hourly_forecast := (processForecastData tz setOrder
              ⟨st.hourly_forecast, st.daily_forecast⟩ fp).1.hourly_forecast
            daily_forecast := (processForecastData tz setOrder
              ⟨st.hourly_forecast, st.daily_forecast⟩ fp).1.daily_forecast
            last_update := now } := by
  simp [fetchWeather, hproc]

/-- When the payload is absent, `get_weather` always fetches. -/
theorem getWeather_absent (tz : ℤ) (setOrder : List String → List String)
    (upd : Option ℚ) (st : MgrState) (now : ℚ) (o : FetchOutcome)
    (habsent : st.weather_data = none) :
    getWeather tz setOrder upd st now o
      = (fetchWeather tz setOrder st o now,
         (fetchWeather tz setOrder st o now).weather_data, 1) := by
  have hguard : shouldFetch upd st now = true := by
    simp [shouldFetch, habsent]
  simp [getWeather, hguard]

/-- When the payload is stale, `get_weather` fetches. -/
theorem getWeather_stale (tz : ℤ) (setOrder : List String → List String)
    (upd : Option ℚ) (st : MgrState) (now : ℚ) (o : FetchOutcome)
    (hstale : now - st.last_update > upd.getD 300) :
    getWeather tz setOrder upd st now o
      = (fetchWeather tz setOrder st o now,
         (fetchWeather tz setOrder st o now).weather_data, 1) := by
  have hguard : shouldFetch upd st now = true := by
    simp [shouldFetch, hstale]
  simp [getWeather, hguard]

/-- **C2, counterexample.**  A failed fetch does not set the whole
snapshot to absent: a raising geocoding request clears only
`weather_data` and `forecast_data`, leaving the derived hourly list in
place, and a missing API key leaves even the previous current
conditions in place. -/
theorem claim2_snapshot_counterexample :
    let st : MgrState :=
      { weather_data := some ⟨70, "Clear", 50⟩,
        forecast_data := some (.items []),
        hourly_forecast := some [⟨"9AM", 70, "Clear"⟩],
        daily_forecast := some [⟨"Thu", "01/01", 75, 70, "Clear"⟩],
        last_update := 100, last_temp_cond := none, last_draw_time := 0 }
    (fetchWeather 0 firstSeen st .geoError 200).hourly_forecast
        = some [⟨"9AM", 70, "Clear"⟩]
    ∧ (fetchWeather 0 firstSeen st .geoError 200).daily_forecast ≠ none
    ∧ (fetchWeather 0 firstSeen st .noApiKey 200).weather_data ≠ none := by
  decide

/-- **C2, amended.**  On a failure that raises inside the `try`
(network error at the geocoding, current-weather or forecast request),
`weather_data` and `forecast_data` are set to `None` and no exception
propagates, but the derived hourly and daily lists are retained stale;
on a missing API key or an unresolved location the whole previous
state, current conditions included, is retained. -/
theorem claim2_failure_effects (tz : ℤ)
    (setOrder : List String → List String) (st : MgrState) (now : ℚ) :
    fetchWeather tz setOrder st .geoError now
      = { st with weather_data := none, forecast_data := none }
    ∧ fetchWeather tz setOrder st .currentError now
      = { st with weather_data := none, forecast_data := none }
    ∧ fetchWeather tz setOrder st .forecastError now
      = { st with weather_data := none, forecast_data := none }
    ∧ fetchWeather tz setOrder st .noApiKey now = st
    ∧ fetchWeather tz setOrder st .geoEmpty now = st :=
  ⟨rfl, rfl, rfl, rfl, rfl⟩

/-- **C4.**  After a failed fetch that leaves the payload absent, the
very next `get_weather` call attempts another fetch even before the
refresh interval has elapsed: an absent payload always triggers an
attempt. -/
theorem claim4_immediate_retry (tz : ℤ)
    (setOrder : List String → List String) (upd : Option ℚ) (st : MgrState)
    (o o2 : FetchOutcome) (now now2 : ℚ)
    (habsent : (fetchWeather tz setOrder st o now).weather_data = none)
    (hfresh : now2 - (fetchWeather tz setOrder st o now).last_update
      ≤ upd.getD 300) :
    (getWeather tz setOrder upd (fetchWeather tz setOrder st o now)
      now2 o2).2.2 = 1 := by
  rw [getWeather_absent tz setOrder upd _ now2 o2 habsent]

/-- Witness for `claim4_immediate_retry`: from a fresh manager, a
geocoding failure at time 0 followed by a call at time 10 (well inside
the 300-unit interval) retries immediately. -/
theorem claim4_immediate_retry_witness :
    (fetchWeather 0 firstSeen initState .geoError 0).weather_data = none
    ∧ (10 : ℚ) - (fetchWeather 0 firstSeen initState .geoError 0).last_update
      ≤ (none : Option ℚ).getD 300
    ∧ (getWeather 0 firstSeen none
        (fetchWeather 0 firstSeen initState .geoError 0) 10 .noApiKey).2.2
      = 1 :=
  ⟨by decide, by norm_num [fetchWeather, initState, Option.getD_none],
   claim4_immediate_retry 0 firstSeen none initState .geoError .noApiKey 0 10
     (by decide) (by norm_num [fetchWeather, initState, Option.getD_none])⟩

/-- **C5.**  `get_weather` attempts a fetch exactly when the payload is
absent or `now - last_update` exceeds the update interval (default
300); the first call on a fresh manager attempts exactly one fetch, and
a second call within the interval after a fully successful first fetch
attempts none. -/
theorem claim5_fetch_policy (tz : ℤ) (setOrder : List String → List String)
    (upd : Option ℚ) (s : MgrState) (n : ℚ) (o o2 : FetchOutcome)
    (w : WPayload) (fp : FPayload) (now1 now2 : ℚ)
    (hproc : (processForecastData tz setOrder ⟨none, none⟩ fp).2 = false)
    (hfresh : now2 - now1 ≤ upd.getD 300) :
    ((getWeather tz setOrder upd s n o).2.2 = 1
      ↔ (s.weather_data = none ∨ n - s.last_update > upd.getD 300))
    ∧ (getWeather tz setOrder upd initState now1 (.success w fp)).2.2 = 1
    ∧ (getWeather tz setOrder upd
        (getWeather tz setOrder upd initState now1 (.success w fp)).1
        now2 o2).2.2 = 0 := by
  have hguard : ∀ (s' : MgrState) (n' : ℚ), shouldFetch upd s' n' = true
      ↔ (s'.weather_data = none ∨ n' - s'.last_update > upd.getD 300) := by
    intro s' n'
    simp [shouldFetch, Option.isNone_iff_eq_none]
  refine ⟨?_, ?_, ?_⟩
  · by_cases h : shouldFetch upd s n
    · simp only [getWeather, h, if_true]
      simpa using (hguard s n).mp h
    · simp only [getWeather, h, Bool.false_eq_true, if_false]
      constructor
      · intro h1
        exact absurd h1 (by norm_num)
      · intro h1
        exact absurd ((hguard s n).mpr h1) (by simp [h])
  · rw [getWeather_absent tz setOrder upd initState now1 _ rfl]
  · have h1 : getWeather tz setOrder upd initState now1 (.success w fp)
        = (fetchWeather tz setOrder initState (.success w fp) now1,
           (fetchWeather tz setOrder initState (.success w fp) now1).weather_data,
           1) :=
      getWeather_absent tz setOrder upd initState now1 _ rfl
    have h2 : fetchWeather tz setOrder initState (.success w fp) now1
        = { initState with
              weather_data := some w
              forecast_data := some fp
              hourly_forecast := (processForecastData tz setOrder
                ⟨none, none⟩ fp).1.hourly_forecast
              daily_forecast := (processForecastData tz setOrder
                ⟨none, none⟩ fp).1.daily_forecast
              last_update := now1 } :=
      fetchWeather_success tz setOrder initState w fp now1 hproc
    rw [h1, h2]
    have hguard2 : shouldFetch upd
        { initState with
            weather_data := some w
            forecast_data := some fp
            hourly_forecast := (processForecastData tz setOrder
              ⟨none, none⟩ fp).1.hourly_forecast
            daily_forecast := (processForecastData tz setOrder
              ⟨none, none⟩ fp).1.daily_forecast
            last_update := now1 } now2 = false := by
      simp [shouldFetch, not_lt.mpr hfresh]
    simp [getWeather, hguard2]

/-- Witness for `claim5_fetch_policy` at a fresh manager, a successful
fetch of an empty forecast at time 0, and a second call at time 100. -/
theorem claim5_fetch_policy_witness :
    (processForecastData 0 firstSeen ⟨none, none⟩ (.items [])).2 = false
    ∧ (100 : ℚ) - 0 ≤ (none : Option ℚ).getD 300
    ∧ (((getWeather 0 firstSeen none initState 0 .noApiKey).2.2 = 1
        ↔ (initState.weather_data = none
            ∨ (0 : ℚ) - initState.last_update > (none : Option ℚ).getD 300))
      ∧ (getWeather 0 firstSeen none initState 0
          (.success ⟨70, "Clear", 50⟩ (.items []))).2.2 = 1
      ∧ (getWeather 0 firstSeen none
          (getWeather 0 firstSeen none initState 0
            (.success ⟨70, "Clear", 50⟩ (.items []))).1
          100 .noApiKey).2.2 = 0) :=
  ⟨by decide, by norm_num [Option.getD_none],
   claim5_fetch_policy 0 firstSeen none initState 0 .noApiKey .noApiKey
     ⟨70, "Clear", 50⟩ (.items []) 0 100 (by decide)
     (by norm_num [Option.getD_none])⟩

/-- `display_weather` when the payload is present and fresh: no fetch
happens and only the dirty check decides. -/
theorem displayWeather_fresh (tz : ℤ) (setOrder : List String → List String)
    (upd : Option ℚ) (st : MgrState) (now : ℚ) (o : FetchOutcome)
    (force : Bool) (w : WPayload) (hw : st.weather_data = some w)
    (hfresh : now - st.last_update ≤ upd.getD 300) :
    displayWeather tz setOrder upd st now o force
      = if currentRedrawCond force st.last_temp_cond (pyRound w.temp)
            w.condition
        then ({ st with last_temp_cond := some (pyRound w.temp, w.condition) },
              some (pyRound w.temp, w.condition, w.humidity))
        else (st, none) := by
  unfold displayWeather
  rw [getWeather_fresh tz setOrder upd st now o w hw hfresh]

/-- `display_weather` when the payload is stale and the forced refetch
fully succeeds with payloads `w2`, `fp`: the dirty check then compares
the freshly fetched values against the recorded key. -/
theorem displayWeather_stale_success (tz : ℤ)
    (setOrder : List String → List String) (upd : Option ℚ) (st : MgrState)
    (now : ℚ) (w2 : WPayload) (fp : FPayload) (force : Bool)
    (hstale : now - st.last_update > upd.getD 300)
    (hproc : (processForecastData tz setOrder
      ⟨st.hourly_forecast, st.daily_forecast⟩ fp).2 = false) :
    displayWeather tz setOrder upd st now (.success w2 fp) force
      = if currentRedrawCond force st.last_temp_cond (pyRound w2.temp)
            w2.condition
        then ({ fetchWeather tz setOrder st (.success w2 fp) now with
                  last_temp_cond := some (pyRound w2.temp, w2.condition) },
              some (pyRound w2.temp, w2.condition, w2.humidity))
        else (fetchWeather tz setOrder st (.success w2 fp) now, none) := by
  unfold displayWeather
  rw [getWeather_stale tz setOrder upd st now _ hstale,
    fetchWeather_success tz setOrder st w2 fp now hproc]

/-- `display_hourly_forecast` when the hourly list is truthy: only the
shared frame gate decides, and a drawn frame stamps `last_draw_time`. -/
theorem displayHourlyForecast_truthy (tz : ℤ)
    (setOrder : List String → List String) (upd : Option ℚ) (st : MgrState)
    (now : ℚ) (o : FetchOutcome) (force : Bool)
    (h : truthyList st.hourly_forecast = true) :
    displayHourlyForecast tz setOrder upd st now o force
      = if !force && decide (now - st.last_draw_time < 1/10) then (st, false)
        else ({ st with last_draw_time := now }, true) := by
  unfold displayHourlyForecast
  rw [if_pos h]
  simp only [h, Bool.not_true, Bool.false_eq_true, if_false]

/-- `display_daily_forecast` when the daily list is truthy. -/
theorem displayDailyForecast_truthy (tz : ℤ)
    (setOrder : List String → List String) (upd : Option ℚ) (st : MgrState)
    (now : ℚ) (o : FetchOutcome) (force : Bool)
    (h : truthyList st.daily_forecast = true) :
    displayDailyForecast tz setOrder upd st now o force
      = if !force && decide (now - st.last_draw_time < 1/10) then (st, false)
        else ({ st with last_draw_time := now }, true) := by
  unfold displayDailyForecast
  rw [if_pos h]
  simp only [h, Bool.not_true, Bool.false_eq_true, if_false]

/-- **C7.**  The redraw decision of `display_weather` (with the payload
present and fresh): `force` always redraws; no recorded key redraws;
with a recorded key the redraw is skipped exactly when the
`(rounded temperature, condition)` key is unchanged; a redraw records
the key while a skipped redraw leaves the state untouched; and the
second of two consecutive `force=false` calls over the same payload
never redraws and changes nothing. -/
theorem claim7_current_redraw_policy (tz : ℤ)
    (setOrder : List String → List String) (upd : Option ℚ)
    (o o2 : FetchOutcome) (st : MgrState) (now now2 : ℚ) (w : WPayload)
    (t : ℤ) (c : String) (hw : st.weather_data = some w)
    (hfresh : now - st.last_update ≤ upd.getD 300)
    (hfresh2 : now2 - st.last_update ≤ upd.getD 300) :
    (displayWeather tz setOrder upd st now o true).2
        = some (pyRound w.temp, w.condition, w.humidity)
    ∧ (displayWeather tz setOrder upd st now o true).1
        = { st with last_temp_cond := some (pyRound w.temp, w.condition) }
    ∧ (displayWeather tz setOrder upd
        { st with last_temp_cond := none } now o false).2
        = some (pyRound w.temp, w.condition, w.humidity)
    ∧ ((displayWeather tz setOrder upd
          { st with last_temp_cond := some (t, c) } now o false).2 = none
        ↔ (pyRound w.temp = t ∧ w.condition = c))
    ∧ (pyRound w.temp = t → w.condition = c →
        (displayWeather tz setOrder upd
          { st with last_temp_cond := some (t, c) } now o false).1
          = { st with last_temp_cond := some (t, c) })
    ∧ (displayWeather tz setOrder upd
        (displayWeather tz setOrder upd st now o false).1 now2 o2 false).2
        = none
    ∧ (displayWeather tz setOrder upd
        (displayWeather tz setOrder upd st now o false).1 now2 o2 false).1
        = (displayWeather tz setOrder upd st now o false).1 := by
  have hfr := displayWeather_fresh tz setOrder upd st now o false w hw hfresh
  have hfrT := displayWeather_fresh tz setOrder upd st now o true w hw hfresh
  have hforce : currentRedrawCond true st.last_temp_cond (pyRound w.temp)
      w.condition = true := by
    simp [currentRedrawCond]
  refine ⟨?_, ?_, ?_, ?_, ?_, ?_, ?_⟩
  · rw [hfrT]
    simp [hforce]
  · rw [hfrT]
    simp [hforce]
  · rw [displayWeather_fresh tz setOrder upd
      { st with last_temp_cond := none } now o false w hw hfresh]
    simp [currentRedrawCond]
  · rw [displayWeather_fresh tz setOrder upd
      { st with last_temp_cond := some (t, c) } now o false w hw hfresh]
    by_cases h1 : pyRound w.temp = t <;> by_cases h2 : w.condition = c <;>
      simp [currentRedrawCond, h1, h2]
  · intro h1 h2
    rw [displayWeather_fresh tz setOrder upd
      { st with last_temp_cond := some (t, c) } now o false w hw hfresh]
    simp [currentRedrawCond, h1, h2]
  · cases hcd : currentRedrawCond false st.last_temp_cond (pyRound w.temp)
        w.condition with
    | true =>
      have hres : (displayWeather tz setOrder upd st now o false).1
          = { st with last_temp_cond := some (pyRound w.temp, w.condition) } := by
        rw [hfr]
        simp [hcd]
      rw [hres, displayWeather_fresh tz setOrder upd
        { st with last_temp_cond := some (pyRound w.temp, w.condition) }
        now2 o2 false w hw hfresh2]
      simp [currentRedrawCond]
    | false =>
      have hres : (displayWeather tz setOrder upd st now o false).1 = st := by
        rw [hfr]
        simp [hcd]
      rw [hres,
        displayWeather_fresh tz setOrder upd st now2 o2 false w hw hfresh2]
      simp [hcd]
  · cases hcd : currentRedrawCond false st.last_temp_cond (pyRound w.temp)
        w.condition with
    | true =>
      have hres : (displayWeather tz setOrder upd st now o false).1
          = { st with last_temp_cond := some (pyRound w.temp, w.condition) } := by
        rw [hfr]
        simp [hcd]
      rw [hres, displayWeather_fresh tz setOrder upd
        { st with last_temp_cond := some (pyRound w.temp, w.condition) }
        now2 o2 false w hw hfresh2]
      simp [currentRedrawCond]
    | false =>
      have hres : (displayWeather tz setOrder upd st now o false).1 = st := by
        rw [hfr]
        simp [hcd]
      rw [hres,
        displayWeather_fresh tz setOrder upd st now2 o2 false w hw hfresh2]
      simp [hcd]

/-- Witness for `claim7_current_redraw_policy` at a concrete fresh
state holding a 70.2-degree clear payload. -/
theorem claim7_current_redraw_policy_witness :
    ({ initState with weather_data := some ⟨70, "Clear", 50⟩ }
        : MgrState).weather_data = some ⟨70, "Clear", 50⟩
    ∧ (0 : ℚ) - ({ initState with weather_data := some ⟨70, "Clear", 50⟩ }
        : MgrState).last_update ≤ (none : Option ℚ).getD 300
    ∧ (displayWeather 0 firstSeen none
        { initState with weather_data := some ⟨70, "Clear", 50⟩ } 0
        .noApiKey true).2 = some (pyRound (70 : ℚ), "Clear", 50) :=
  ⟨rfl, by norm_num [initState, Option.getD_none],
   ((claim7_current_redraw_policy 0 firstSeen none .noApiKey .noApiKey
      { initState with weather_data := some ⟨70, "Clear", 50⟩ } 0 0
      ⟨70, "Clear", 50⟩ 70 "Clear" rfl
      (by norm_num [initState, Option.getD_none])
      (by norm_num [initState, Option.getD_none])).1)⟩

/-- **C9.**  The 0.1-unit minimum-frame gate applies to the daily view
as well as the hourly view, and both read and stamp the single shared
`last_draw_time` field: after a drawn hourly frame at time `t`, a
daily-view call with `force=false` within 0.1 units is skipped and
changes nothing, and symmetrically a drawn daily frame suppresses the
next hourly call. -/
theorem claim9_shared_frame_gate (tz : ℤ)
    (setOrder : List String → List String) (upd : Option ℚ)
    (o1 o2 o3 o4 : FetchOutcome) (f1 f2 : Bool) (s u : MgrState)
    (t t' r r' : ℚ)
    (hH : truthyList s.hourly_forecast = true)
    (hD : truthyList s.daily_forecast = true)
    (hdrew : (displayHourlyForecast tz setOrder upd s t o1 f1).2 = true)
    (hgap : t' - t < 1/10)
    (hH2 : truthyList u.hourly_forecast = true)
    (hD2 : truthyList u.daily_forecast = true)
    (hdrew2 : (displayDailyForecast tz setOrder upd u r o3 f2).2 = true)
    (hgap2 : r' - r < 1/10) :
    displayDailyForecast tz setOrder upd
        (displayHourlyForecast tz setOrder upd s t o1 f1).1 t' o2 false
      = ((displayHourlyForecast tz setOrder upd s t o1 f1).1, false)
    ∧ displayHourlyForecast tz setOrder upd
        (displayDailyForecast tz setOrder upd u r o3 f2).1 r' o4 false
      = ((displayDailyForecast tz setOrder upd u r o3 f2).1, false) := by
  have h1 := displayHourlyForecast_truthy tz setOrder upd s t o1 f1 hH
  have h2 := displayDailyForecast_truthy tz setOrder upd u r o3 f2 hD2
  constructor
  · cases hb : (!f1 && decide (t - s.last_draw_time < 1/10)) with
    | true =>
      rw [h1, hb] at hdrew
      simp at hdrew
    | false =>
      have hres : (displayHourlyForecast tz setOrder upd s t o1 f1).1
          = { s with last_draw_time := t } := by
        rw [h1, hb]
        simp
      rw [hres, displayDailyForecast_truthy tz setOrder upd
        { s with last_draw_time := t } t' o2 false hD]
      simp only [Bool.not_false, Bool.true_and, decide_eq_true_eq, if_pos hgap]
  · cases hb : (!f2 && decide (r - u.last_draw_time < 1/10)) with
    | true =>
      rw [h2, hb] at hdrew2
      simp at hdrew2
    | false =>
      have hres : (displayDailyForecast tz setOrder upd u r o3 f2).1
          = { u with last_draw_time := r } := by
        rw [h2, hb]
        simp
      rw [hres, displayHourlyForecast_truthy tz setOrder upd
        { u with last_draw_time := r } r' o4 false hH2]
      simp only [Bool.not_false, Bool.true_and, decide_eq_true_eq, if_pos hgap2]

/-- Witness for `claim9_shared_frame_gate`: forced hourly and daily
draws at time 1 suppress the other view's unforced call at 1.05. -/
theorem claim9_shared_frame_gate_witness :
    (truthyList ({ initState with
        hourly_forecast := some [⟨"9AM", 70, "Clear"⟩]
        daily_forecast := some [⟨"Thu", "01/01", 75, 70, "Clear"⟩] }
          : MgrState).hourly_forecast = true)
    ∧ ((21 : ℚ)/20 - 1 < 1/10)
    ∧ (displayDailyForecast 0 firstSeen none
        (displayHourlyForecast 0 firstSeen none
          { initState with
              hourly_forecast := some [⟨"9AM", 70, "Clear"⟩]
              daily_forecast := some [⟨"Thu", "01/01", 75, 70, "Clear"⟩] }
          1 .noApiKey true).1 (21/20) .noApiKey false
      = ((displayHourlyForecast 0 firstSeen none
          { initState with
              hourly_forecast := some [⟨"9AM", 70, "Clear"⟩]
              daily_forecast := some [⟨"Thu", "01/01", 75, 70, "Clear"⟩] }
          1 .noApiKey true).1, false)) := by
  have hH : truthyList ({ initState with
      hourly_forecast := some [⟨"9AM", 70, "Clear"⟩]
      daily_forecast := some [⟨"Thu", "01/01", 75, 70, "Clear"⟩] }
        : MgrState).hourly_forecast = true := rfl
  have hD : truthyList ({ initState with
      hourly_forecast := some [⟨"9AM", 70, "Clear"⟩]
      daily_forecast := some [⟨"Thu", "01/01", 75, 70, "Clear"⟩] }
        : MgrState).daily_forecast = true := rfl
  have hgap : (21 : ℚ)/20 - 1 < 1/10 := by norm_num
  have hdrew : (displayHourlyForecast 0 firstSeen none
      { initState with
          hourly_forecast := some [⟨"9AM", 70, "Clear"⟩]
          daily_forecast := some [⟨"Thu", "01/01", 75, 70, "Clear"⟩] }
      1 .noApiKey true).2 = true := by
    rw [displayHourlyForecast_truthy 0 firstSeen none _ 1 .noApiKey true hH]
    simp
  have hdrew2 : (displayDailyForecast 0 firstSeen none
      { initState with
          hourly_forecast := some [⟨"9AM", 70, "Clear"⟩]
          daily_forecast := some [⟨"Thu", "01/01", 75, 70, "Clear"⟩] }
      1 .noApiKey true).2 = true := by
    rw [displayDailyForecast_truthy 0 firstSeen none _ 1 .noApiKey true hD]
    simp
  exact ⟨hH, hgap,
    (claim9_shared_frame_gate 0 firstSeen none .noApiKey .noApiKey .noApiKey
      .noApiKey true true _ _ 1 (21/20) 1 (21/20) hH hD hdrew hgap hH hD
      hdrew2 hgap).1⟩

/-- **C10.**  The current-view dirty check reads only the rounded
temperature and the condition: after a first rendered frame, a second
`force=false` call whose freshly fetched payload agrees on the rounded
temperature and the condition but differs in humidity performs no
redraw, so the humidity shown on screen stays the first payload's. -/
theorem claim10_humidity_stale (tz : ℤ)
    (setOrder : List String → List String) (upd : Option ℚ)
    (o1 : FetchOutcome) (st : MgrState) (now1 now2 : ℚ) (w1 w2 : WPayload)
    (fp : FPayload)
    (hw : st.weather_data = some w1)
    (hprev : st.last_temp_cond = none)
    (hf1 : now1 - st.last_update ≤ upd.getD 300)
    (hstale : now2 - st.last_update > upd.getD 300)
    (hproc : (processForecastData tz setOrder
      ⟨st.hourly_forecast, st.daily_forecast⟩ fp).2 = false)
    (htemp : pyRound w2.temp = pyRound w1.temp)
    (hcond : w2.condition = w1.condition)
    (hhum : w2.humidity ≠ w1.humidity) :
    (displayWeather tz setOrder upd st now1 o1 false).2
        = some (pyRound w1.temp, w1.condition, w1.humidity)
    ∧ (displayWeather tz setOrder upd
        (displayWeather tz setOrder upd st now1 o1 false).1
        now2 (.success w2 fp) false).2 = none := by
  have h1 := displayWeather_fresh tz setOrder upd st now1 o1 false w1 hw hf1
  have hcd : currentRedrawCond false st.last_temp_cond (pyRound w1.temp)
      w1.condition = true := by
    rw [hprev]
    rfl
  have hres1 : (displayWeather tz setOrder upd st now1 o1 false).1
      = { st with last_temp_cond := some (pyRound w1.temp, w1.condition) } := by
    rw [h1]
    simp [hcd]
  refine ⟨?_, ?_⟩
  · rw [h1]
    simp [hcd]
  · rw [hres1, displayWeather_stale_success tz setOrder upd
      { st with last_temp_cond := some (pyRound w1.temp, w1.condition) }
      now2 w2 fp false hstale hproc]
    simp [currentRedrawCond, htemp, hcond]

/-- Witness for `claim10_humidity_stale`: 70.2° then 70.4° Clear —
both round to 70 — with humidity 50 then 60; the second frame is not
drawn. -/
theorem claim10_humidity_stale_witness :
    ({ initState with weather_data := some ⟨351/5, "Clear", 50⟩ }
        : MgrState).weather_data = some ⟨351/5, "Clear", 50⟩
    ∧ pyRound (352/5 : ℚ) = pyRound (351/5 : ℚ)
    ∧ ((50 : ℤ) ≠ 60)
    ∧ (displayWeather 0 firstSeen none
        { initState with weather_data := some ⟨351/5, "Clear", 50⟩ } 0
        .noApiKey false).2 = some (pyRound (351/5 : ℚ), "Clear", 50)
    ∧ (displayWeather 0 firstSeen none
        (displayWeather 0 firstSeen none
          { initState with weather_data := some ⟨351/5, "Clear", 50⟩ } 0
          .noApiKey false).1
        301 (.success ⟨352/5, "Clear", 60⟩ (.items [])) false).2 = none := by
  have htemp : pyRound (352/5 : ℚ) = pyRound (351/5 : ℚ) := by
    have hfa : ⌊(352/5 : ℚ)⌋ = 70 := by
      rw [Int.floor_eq_iff]
      norm_num
    have hfb : ⌊(351/5 : ℚ)⌋ = 70 := by
      rw [Int.floor_eq_iff]
      norm_num
    have ha : pyRound (352/5 : ℚ) = 70 := by
      simp only [pyRound, hfa]
      norm_num
    have hb : pyRound (351/5 : ℚ) = 70 := by
      simp only [pyRound, hfb]
      norm_num
    rw [ha, hb]
  have hmain := claim10_humidity_stale 0 firstSeen none .noApiKey
    { initState with weather_data := some ⟨351/5, "Clear", 50⟩ } 0 301
    ⟨351/5, "Clear", 50⟩ ⟨352/5, "Clear", 60⟩ (.items []) rfl rfl
    (by norm_num [initState, Option.getD_none])
    (by norm_num [initState, Option.getD_none])
    (by decide) htemp rfl (by decide)
  exact ⟨rfl, htemp, by decide, hmain.1, hmain.2⟩

end LEDMatrix
